import Mathlib

/-!
Verification of the webhook receiver in `server-example.py`.

The development shallowly embeds the program: bytes are natural numbers
below 256, byte strings are `List Nat`, machine words are natural numbers
reduced modulo `2 ^ 32` where the source's 32-bit arithmetic overflows.
The HMAC-SHA256 primitive used through Python's `hmac`/`hashlib` modules
is embedded in full (FIPS 180-4 / RFC 2104), so that the concrete
scenarios of the specification can be evaluated inside Lean.
-/

set_option maxRecDepth 1000000

namespace Playlog

/-- The 32-bit modulus used by SHA-256 word arithmetic. -/
def wordMod : Nat := 4294967296

/-- Right rotation of a 32-bit word by `k` places. -/
def rotr (k x : Nat) : Nat := ((x >>> k) ||| (x <<< (32 - k))) % wordMod

/-- The SHA-256 `Ch` function. -/
def ch (x y z : Nat) : Nat := Nat.xor (Nat.land x y) (Nat.land (wordMod - 1 - x % wordMod) z)

/-- The SHA-256 `Maj` function. -/
def maj (x y z : Nat) : Nat := Nat.xor (Nat.xor (Nat.land x y) (Nat.land x z)) (Nat.land y z)

/-- The SHA-256 big `Σ0` function. -/
def bigSigma0 (x : Nat) : Nat := Nat.xor (Nat.xor (rotr 2 x) (rotr 13 x)) (rotr 22 x)

/-- The SHA-256 big `Σ1` function. -/
def bigSigma1 (x : Nat) : Nat := Nat.xor (Nat.xor (rotr 6 x) (rotr 11 x)) (rotr 25 x)

/-- The SHA-256 small `σ0` function. -/
def smallSigma0 (x : Nat) : Nat := Nat.xor (Nat.xor (rotr 7 x) (rotr 18 x)) (x >>> 3)

/-- The SHA-256 small `σ1` function. -/
def smallSigma1 (x : Nat) : Nat := Nat.xor (Nat.xor (rotr 17 x) (rotr 19 x)) (x >>> 10)

/-- The 64 SHA-256 round constants (FIPS 180-4, in decimal). -/
def sha256K : List Nat :=
  [1116352408, 1899447441, 3049323471, 3921009573, 961987163, 1508970993,
   2453635748, 2870763221, 3624381080, 310598401, 607225278, 1426881987,
   1925078388, 2162078206, 2614888103, 3248222580, 3835390401, 4022224774,
   264347078, 604807628, 770255983, 1249150122, 1555081692, 1996064986,
   2554220882, 2821834349, 2952996808, 3210313671, 3336571891, 3584528711,
   113926993, 338241895, 666307205, 773529912, 1294757372, 1396182291,
   1695183700, 1986661051, 2177026350, 2456956037, 2730485921, 2820302411,
   3259730800, 3345764771, 3516065817, 3600352804, 4094571909, 275423344,
   430227734, 506948616, 659060556, 883997877, 958139571, 1322822218,
   1537002063, 1747873779, 1955562222, 2024104815, 2227730452, 2361852424,
   2428436474, 2756734187, 3204031479, 3329325298]

/-- The SHA-256 initial hash value (FIPS 180-4, in decimal). -/
def sha256H0 : List Nat :=
  [1779033703, 3144134277, 1013904242, 2773480762,
   1359893119, 2600822924, 528734635, 1541459225]

/-- SHA-256 padding: append `0x80`, zero bytes, and the 64-bit big-endian
bit length, so the total length is a multiple of 64 bytes. -/
def sha256Pad (msg : List Nat) : List Nat :=
  let L := msg.length
  let k := (119 - L % 64) % 64
  let bits := 8 * L
  msg ++ [0x80] ++ List.replicate k 0 ++
    [bits >>> 56 % 256, bits >>> 48 % 256, bits >>> 40 % 256, bits >>> 32 % 256,
     bits >>> 24 % 256, bits >>> 16 % 256, bits >>> 8 % 256, bits % 256]

/-- Group a byte sequence into big-endian 32-bit words. -/
def bytesToWords : List Nat → List Nat
  | b0 :: b1 :: b2 :: b3 :: rest =>
      (b0 <<< 24 ||| b1 <<< 16 ||| b2 <<< 8 ||| b3) :: bytesToWords rest
  | _ => []

/-- Split a byte sequence into 64-byte chunks; the fuel argument bounds the
number of chunks and makes the recursion structural. -/
def chunk64Aux : Nat → List Nat → List (List Nat)
  | _, [] => []
  | 0, _ => []
  | fuel + 1, b :: rest => (b :: rest.take 63) :: chunk64Aux fuel (rest.drop 63)

/-- Split a byte sequence into 64-byte chunks. -/
def chunk64 (l : List Nat) : List (List Nat) := chunk64Aux l.length l

/-- Extend a 16-word block with `n` further message-schedule words. -/
def extendSchedule : Nat → List Nat → List Nat
  | 0, w => w
  | n + 1, w =>
      let t := w.length
      let nw := (smallSigma1 (w.getD (t - 2) 0) + w.getD (t - 7) 0 +
                 smallSigma0 (w.getD (t - 15) 0) + w.getD (t - 16) 0) % wordMod
      extendSchedule n (w ++ [nw])

/-- The SHA-256 working state `(a, b, c, d, e, f, g, h)`. -/
structure Sha256State where
  a : Nat
  b : Nat
  c : Nat
  d : Nat
  e : Nat
  f : Nat
  g : Nat
  h : Nat
deriving Repr, DecidableEq

/-- One SHA-256 round, consuming a round constant paired with a schedule word. -/
def sha256Round (st : Sha256State) (kw : Nat × Nat) : Sha256State :=
  let t1 := (st.h + bigSigma1 st.e + ch st.e st.f st.g + kw.1 + kw.2) % wordMod
  let t2 := (bigSigma0 st.a + maj st.a st.b st.c) % wordMod
  { a := (t1 + t2) % wordMod, b := st.a, c := st.b, d := st.c,
    e := (st.d + t1) % wordMod, f := st.e, g := st.f, h := st.g }

/-- Compress one 64-byte block into the running eight-word hash value. -/
def sha256Compress (hv : List Nat) (block : List Nat) : List Nat :=
  let w := extendSchedule 48 (bytesToWords block)
  let st0 : Sha256State :=
    { a := hv.getD 0 0, b := hv.getD 1 0, c := hv.getD 2 0, d := hv.getD 3 0,
      e := hv.getD 4 0, f := hv.getD 5 0, g := hv.getD 6 0, h := hv.getD 7 0 }
  let st := (sha256K.zip w).foldl sha256Round st0
  [(hv.getD 0 0 + st.a) % wordMod, (hv.getD 1 0 + st.b) % wordMod,
   (hv.getD 2 0 + st.c) % wordMod, (hv.getD 3 0 + st.d) % wordMod,
   (hv.getD 4 0 + st.e) % wordMod, (hv.getD 5 0 + st.f) % wordMod,
   (hv.getD 6 0 + st.g) % wordMod, (hv.getD 7 0 + st.h) % wordMod]

/-- Serialise eight 32-bit words into big-endian bytes. -/
def wordsToBytes : List Nat → List Nat
  | [] => []
  | w :: rest => (w >>> 24 % 256) :: (w >>> 16 % 256) :: (w >>> 8 % 256) :: (w % 256) :: wordsToBytes rest

/-- SHA-256 of a byte sequence, as 32 bytes. -/
def sha256 (msg : List Nat) : List Nat :=
  wordsToBytes ((chunk64 (sha256Pad msg)).foldl sha256Compress sha256H0)

/-- HMAC-SHA256 (RFC 2104): keys longer than the 64-byte block are first
hashed, shorter keys are zero-padded; inner pad `0x36`, outer pad `0x5c`.
This is what `hmac.new(key, digestmod=hashlib.sha256)` computes. -/
def hmacSha256 (key msg : List Nat) : List Nat :=
  let k0 := if key.length > 64 then sha256 key else key
  let kp := k0 ++ List.replicate (64 - k0.length) 0
  sha256 ((kp.map (Nat.xor 0x5c)) ++ sha256 ((kp.map (Nat.xor 0x36)) ++ msg))

/-- The lowercase hexadecimal digit for a nibble. -/
def hexDigit (n : Nat) : Char :=
  "0123456789abcdef".data.getD n '0'

/-- Lowercase hexadecimal rendering of a byte sequence, as produced by
Python's `.hexdigest()`. -/
def bytesToHex (bs : List Nat) : String :=
  ⟨bs.foldr (fun b acc => hexDigit (b >>> 4 % 16) :: hexDigit (b % 16) :: acc) []⟩

/-- ASCII bytes of a Lean string; used to write the byte literals of the
source (`b'secret'`, request bodies) as readable constants. -/
def strBytes (s : String) : List Nat := s.data.map Char.toNat

/-- The hardcoded shared secret `SECRET = b'secret'` of the source. -/
def SECRET : List Nat := strBytes "secret"

/-- Embeds `verify_signature(expected_signature, data)`: compute the
HMAC-SHA256 hex digest of `data` under `SECRET` and compare it to the
supplied signature with `==`. The header value arrives through
`headers.get(...)`, so it may be `None` (`none` here); in Python a
`str == None` comparison is `False`, which the `none` branch mirrors. -/
def verify_signature (expected_signature : Option String) (data : List Nat) : Bool :=
  match expected_signature with
  | none => false
  | some s => bytesToHex (hmacSha256 SECRET data) == s

/-! ### A model of `json.loads`

The handler calls `json.loads(request_data)` on the raw bytes. Python
first decodes the bytes as UTF-8, then runs the strict JSON scanner
(`json.scanner.py_make_scanner`). Both are modelled below. Two stdlib
fringes are simplified: byte-order-mark encoding sniffing for UTF-16/32
bodies is not modelled (bodies are treated as UTF-8), and a lone
surrogate produced by a `\uXXXX` escape, which Python keeps in the
string, maps to the NUL character because Lean's `Char` holds only
Unicode scalar values. -/

/-- A JSON number as Python's scanner produces it: an `Int` when the
lexeme has no fraction and no exponent, otherwise a float kept here as
its lexeme (float value semantics is not needed by the handler, which
only prints the value). -/
inductive JNum where
  | int (n : Int)
  | float (lexeme : String)
deriving Repr, DecidableEq

/-- A parsed JSON value; objects are Python dicts, i.e. key-value lists
in first-insertion order with duplicate keys already resolved. -/
inductive JVal where
  | null
  | bool (b : Bool)
  | num (n : JNum)
  | str (s : String)
  | arr (elems : List JVal)
  | obj (members : List (String × JVal))

/-- Is the byte a UTF-8 continuation byte? -/
def isCont (b : Nat) : Bool := 0x80 ≤ b && b ≤ 0xbf

/-- UTF-8 decoding of a byte sequence into Unicode code points, with the
validity checks Python's strict `utf-8` codec applies (no overlong forms,
no surrogates, nothing beyond U+10FFFF). The fuel argument makes the
recursion structural; one unit per decoded character suffices. -/
def utf8DecodeAux : Nat → List Nat → Option (List Nat)
  | _, [] => some []
  | 0, _ => none
  | fuel + 1, b :: rest =>
    if b < 0x80 then
      (utf8DecodeAux fuel rest).map (b :: ·)
    else if 0xc2 ≤ b && b ≤ 0xdf then
      match rest with
      | c1 :: r2 =>
        if isCont c1 then
          (utf8DecodeAux fuel r2).map (((b - 0xc0) * 64 + (c1 - 0x80)) :: ·)
        else none
      | _ => none
    else if 0xe0 ≤ b && b ≤ 0xef then
      match rest with
      | c1 :: c2 :: r2 =>
        let lo1 := if b = 0xe0 then 0xa0 else 0x80
        let hi1 := if b = 0xed then 0x9f else 0xbf
        if (lo1 ≤ c1 && c1 ≤ hi1) && isCont c2 then
          (utf8DecodeAux fuel r2).map
            (((b - 0xe0) * 4096 + (c1 - 0x80) * 64 + (c2 - 0x80)) :: ·)
        else none
      | _ => none
    else if 0xf0 ≤ b && b ≤ 0xf4 then
      match rest with
      | c1 :: c2 :: c3 :: r2 =>
        let lo1 := if b = 0xf0 then 0x90 else 0x80
        let hi1 := if b = 0xf4 then 0x8f else 0xbf
        if (lo1 ≤ c1 && c1 ≤ hi1) && (isCont c2 && isCont c3) then
          (utf8DecodeAux fuel r2).map
            (((b - 0xf0) * 262144 + (c1 - 0x80) * 4096 + (c2 - 0x80) * 64 + (c3 - 0x80)) :: ·)
        else none
      | _ => none
    else none

/-- Decode bytes as a UTF-8 string, as `bytes.decode('utf-8')` does. -/
def utf8Decode (bs : List Nat) : Option String :=
  (utf8DecodeAux bs.length bs).map (fun cps => ⟨cps.map Char.ofNat⟩)

/-- JSON whitespace (the scanner skips exactly these four characters). -/
def isJsonWs (c : Char) : Bool := c = ' ' || c = '\t' || c = '\n' || c = '\r'

/-- Drop leading JSON whitespace. -/
def skipWs : List Char → List Char
  | [] => []
  | c :: rest => if isJsonWs c then skipWs rest else c :: rest

/-- The value of a hexadecimal digit character, if it is one (digits are
code points 48-57, lowercase letters 97-102, uppercase 65-70). -/
def hexVal (c : Char) : Option Nat :=
  let n := c.toNat
  if 48 ≤ n && n ≤ 57 then some (n - 48)
  else if 97 ≤ n && n ≤ 102 then some (n - 87)
  else if 65 ≤ n && n ≤ 70 then some (n - 55)
  else none

/-- Read exactly four hexadecimal digits (the `XXXX` of a `\uXXXX` escape). -/
def parseHex4 : List Char → Option (Nat × List Char)
  | c1 :: c2 :: c3 :: c4 :: rest =>
    match hexVal c1, hexVal c2, hexVal c3, hexVal c4 with
    | some v1, some v2, some v3, some v4 => some (v1 * 4096 + v2 * 256 + v3 * 16 + v4, rest)
    | _, _, _, _ => none
  | _ => none

/-- Python's `chr`; a lone surrogate code point, which Lean's `Char`
cannot hold, maps to NUL. -/
def pyChr (n : Nat) : Char := Char.ofNat n

/-- Scan a JSON string body after the opening quote, following
`json.decoder.py_scanstring` in strict mode: raw control characters are
rejected, the eight simple escapes and `\uXXXX` are honoured, and a high
surrogate escape immediately followed by a low surrogate escape is
combined into one character. Returns the characters and the input after
the closing quote. -/
def scanString : Nat → List Char → Option (List Char × List Char)
  | 0, _ => none
  | _ + 1, [] => none
  | fuel + 1, c :: rest =>
    if c = '"' then some ([], rest)
    else if c = '\\' then
      match rest with
      | [] => none
      | e :: r2 =>
        if e = '"' then (scanString fuel r2).map (fun (s, r) => ('"' :: s, r))
        else if e = '\\' then (scanString fuel r2).map (fun (s, r) => ('\\' :: s, r))
        else if e = '/' then (scanString fuel r2).map (fun (s, r) => ('/' :: s, r))
        else if e = 'b' then (scanString fuel r2).map (fun (s, r) => ('\x08' :: s, r))
        else if e = 'f' then (scanString fuel r2).map (fun (s, r) => ('\x0c' :: s, r))
        else if e = 'n' then (scanString fuel r2).map (fun (s, r) => ('\n' :: s, r))
        else if e = 'r' then (scanString fuel r2).map (fun (s, r) => ('\x0d' :: s, r))
        else if e = 't' then (scanString fuel r2).map (fun (s, r) => ('\t' :: s, r))
        else if e = 'u' then
          match parseHex4 r2 with
          | none => none
          | some (u, r3) =>
            if 0xd800 ≤ u && u ≤ 0xdbff then
              match r3 with
              | '\\' :: 'u' :: r4 =>
                match parseHex4 r4 with
                | some (u2, r5) =>
                  if 0xdc00 ≤ u2 && u2 ≤ 0xdfff then
                    let cp := 0x10000 + (u - 0xd800) * 1024 + (u2 - 0xdc00)
                    (scanString fuel r5).map (fun (s, r) => (pyChr cp :: s, r))
                  else (scanString fuel r3).map (fun (s, r) => (pyChr u :: s, r))
                | none => (scanString fuel r3).map (fun (s, r) => (pyChr u :: s, r))
              | _ => (scanString fuel r3).map (fun (s, r) => (pyChr u :: s, r))
            else (scanString fuel r3).map (fun (s, r) => (pyChr u :: s, r))
        else none
    else if c.toNat < 0x20 then none
    else (scanString fuel rest).map (fun (s, r) => (c :: s, r))

/-- Is the character a decimal digit? -/
def isDigitCh (c : Char) : Bool := '0' ≤ c && c ≤ '9'

/-- Take the longest prefix of decimal digits. -/
def spanDigits : List Char → List Char × List Char
  | [] => ([], [])
  | c :: rest =>
    if isDigitCh c then
      let (ds, r) := spanDigits rest
      (c :: ds, r)
    else ([], c :: rest)

/-- Natural number value of a digit string. -/
def digitsVal (ds : List Char) : Nat :=
  ds.foldl (fun acc c => acc * 10 + (c.toNat - '0'.toNat)) 0

/-- Scan a JSON number following the scanner's `NUMBER_RE`:
`-?(0|[1-9]\d*)(\.\d+)?([eE][+-]?\d+)?`. An integer lexeme becomes a
Python `int`; any fraction or exponent makes it a float. -/
def scanNumber (l : List Char) : Option (JNum × List Char) :=
  let (neg, l1) := match l with
    | '-' :: r => (true, r)
    | _ => (false, l)
  match l1 with
  | c :: _ =>
    if !isDigitCh c then none
    else
      let (intDs, l2) :=
        if c = '0' then ([c], l1.tail)
        else spanDigits l1
      if intDs.length > 1 && intDs.headD '0' = '0' then none
      else
        let (fracDs, l3) := match l2 with
          | '.' :: r =>
            let (ds, r2) := spanDigits r
            if ds.isEmpty then ([], l2) else ('.' :: ds, r2)
          | _ => ([], l2)
        let fracOk : Bool := match l2 with
          | '.' :: r => !(spanDigits r).1.isEmpty
          | _ => true
        if !fracOk then none
        else
          let (expDs, l4) := match l3 with
            | e :: r =>
              if e = 'e' || e = 'E' then
                let (sgn, r2) := match r with
                  | s :: r3 => if s = '+' || s = '-' then ([s], r3) else (([] : List Char), r)
                  | [] => ([], r)
                let (ds, r4) := spanDigits r2
                if ds.isEmpty then (([] : List Char), l3) else (e :: (sgn ++ ds), r4)
              else ([], l3)
            | [] => ([], l3)
          let expOk : Bool := match l3 with
            | e :: r =>
              if e = 'e' || e = 'E' then
                let r2 := match r with
                  | s :: r3 => if s = '+' || s = '-' then r3 else r
                  | [] => r
                !(spanDigits r2).1.isEmpty
              else true
            | [] => true
          if !expOk then none
          else if fracDs.isEmpty && expDs.isEmpty then
            let v : Int := Int.ofNat (digitsVal intDs)
            some (JNum.int (if neg then -v else v), l2)
          else
            let lexeme : List Char := (if neg then ['-'] else []) ++ intDs ++ fracDs ++ expDs
            some (JNum.float ⟨lexeme⟩, l4)
  | [] => none

/-- Python `dict` insertion: an existing key keeps its position and takes
the new value, a new key is appended. -/
def dictInsert (d : List (String × JVal)) (k : String) (v : JVal) : List (String × JVal) :=
  if d.any (fun kv => kv.1 = k) then
    d.map (fun kv => if kv.1 = k then (k, v) else kv)
  else d ++ [(k, v)]

/-- Build a Python dict from parsed members, as `dict(pairs)` does. -/
def dictOfPairs (pairs : List (String × JVal)) : List (String × JVal) :=
  pairs.foldl (fun d kv => dictInsert d kv.1 kv.2) []

mutual

/-- Scan one JSON value at the head of the input (leading whitespace
already skipped), following `py_make_scanner`'s `_scan_once`; the scanner
also accepts the non-standard `NaN`, `Infinity` and `-Infinity`. -/
def scanValue : Nat → List Char → Option (JVal × List Char)
  | 0, _ => none
  | fuel + 1, l =>
    match l with
    | '{' :: r =>
      match skipWs r with
      | '}' :: r2 => some (JVal.obj [], r2)
      | r2 => (scanMembers fuel r2).map (fun (ms, r3) => (JVal.obj (dictOfPairs ms), r3))
    | '[' :: r =>
      match skipWs r with
      | ']' :: r2 => some (JVal.arr [], r2)
      | r2 => (scanElements fuel r2).map (fun (vs, r3) => (JVal.arr vs, r3))
    | '"' :: r => (scanString (r.length + 1) r).map (fun (s, r2) => (JVal.str ⟨s⟩, r2))
    | 'n' :: 'u' :: 'l' :: 'l' :: r => some (JVal.null, r)
    | 't' :: 'r' :: 'u' :: 'e' :: r => some (JVal.bool true, r)
    | 'f' :: 'a' :: 'l' :: 's' :: 'e' :: r => some (JVal.bool false, r)
    | 'N' :: 'a' :: 'N' :: r => some (JVal.num (JNum.float "NaN"), r)
    | 'I' :: 'n' :: 'f' :: 'i' :: 'n' :: 'i' :: 't' :: 'y' :: r =>
      some (JVal.num (JNum.float "Infinity"), r)
    | '-' :: 'I' :: 'n' :: 'f' :: 'i' :: 'n' :: 'i' :: 't' :: 'y' :: r =>
      some (JVal.num (JNum.float "-Infinity"), r)
    | _ => (scanNumber l).map (fun (n, r) => (JVal.num n, r))

/-- Scan the elements of a non-empty JSON array up to and including the
closing bracket. -/
def scanElements : Nat → List Char → Option (List JVal × List Char)
  | 0, _ => none
  | fuel + 1, l =>
    match scanValue fuel (skipWs l) with
    | none => none
    | some (v, r) =>
      match skipWs r with
      | ',' :: r2 => (scanElements fuel r2).map (fun (vs, r3) => (v :: vs, r3))
      | ']' :: r2 => some ([v], r2)
      | _ => none

/-- Scan the members of a non-empty JSON object up to and including the
closing brace; keys must be strings. -/
def scanMembers : Nat → List Char → Option (List (String × JVal) × List Char)
  | 0, _ => none
  | fuel + 1, l =>
    match l with
    | '"' :: r =>
      match scanString (r.length + 1) r with
      | none => none
      | some (k, r2) =>
        match skipWs r2 with
        | ':' :: r3 =>
          match scanValue fuel (skipWs r3) with
          | none => none
          | some (v, r4) =>
            match skipWs r4 with
            | ',' :: r5 =>
              match skipWs r5 with
              | r6 => (scanMembers fuel r6).map (fun (ms, r7) => ((⟨k⟩, v) :: ms, r7))
            | '}' :: r5 => some ([(⟨k⟩, v)], r5)
            | _ => none
        | _ => none
    | _ => none

end

/-- Parse a whole document as `json.JSONDecoder.decode` does: skip
leading whitespace, scan one value, require only whitespace after it. -/
def jsonParseStr (s : String) : Option JVal :=
  let l := skipWs s.data
  match scanValue (l.length + 1) l with
  | none => none
  | some (v, r) => if (skipWs r).isEmpty then some v else none

/-- `json.loads` on bytes: UTF-8 decode, then parse. `none` stands for
the call raising (`UnicodeDecodeError` or `JSONDecodeError`). -/
def jsonLoads (bs : List Nat) : Option JVal :=
  (utf8Decode bs).bind jsonParseStr

/-! ### The request handler `RequestHandler.do_POST` -/

/-- The Python exceptions the handler can raise. `attributeError` arises
from the handler's `except json.DecoderError` clause: the `json` module
has no attribute `DecoderError` (the real name is `JSONDecodeError`), so
evaluating the clause while an exception is in flight raises
`AttributeError`. -/
inductive PyErr where
  | typeError
  | valueError
  | attributeError
deriving Repr, DecidableEq

/-- An incoming POST request as `do_POST` observes it: the raw value of
the `Content-Length` header (`none` when absent, since
`self.headers['Content-Length']` returns `None` then), the raw value of
the `X-HMAC-Signature` header from `self.headers.get(...)`, and the
bytes available on `self.rfile`. -/
structure Request where
  contentLength : Option String
  signature : Option String
  body : List Nat
deriving Repr, DecidableEq

/-- One line written to standard output by the handler: either
`print(data)` of the parsed JSON value or a `print` of a message. -/
inductive OutputLine where
  | value (v : JVal)
  | msg (s : String)

/-- The response `do_POST` sends: `send_response(status)`,
`send_header('Content-type', 'text/plain')`, `end_headers()`, and no
body bytes. -/
structure HttpResponse where
  status : Nat
  contentType : String
  responseBody : List Nat

/-- What a completed (non-raising) `do_POST` did: the lines it printed,
in order, and the one response it sent. -/
structure HandlerResult where
  printed : List OutputLine
  response : HttpResponse

/-- Split an optional leading sign off a numeral: the flag says whether
the numeral is negated. -/
def pySign : List Char → Bool × List Char
  | '-' :: r => (true, r)
  | '+' :: r => (false, r)
  | l => (false, l)

/-- Python `int(s)` on the characters of a string: optional surrounding
whitespace, an optional sign, then at least one decimal digit. (Unicode
digits and underscore separators, which Python also accepts, are not
modelled.) -/
def pyIntChars (l0 : List Char) : Option Int :=
  let s := pySign (skipWs l0)
  let d := spanDigits s.2
  if d.1.isEmpty || !(skipWs d.2).isEmpty then none
  else
    let v : Int := Int.ofNat (digitsVal d.1)
    some (if s.1 then -v else v)

/-- Python `int(s)` on a string. -/
def pyIntOfString (s : String) : Option Int := pyIntChars s.data

/-- `int(self.headers['Content-Length'])`: a missing header gives `None`
and `int(None)` raises `TypeError`; a non-integer header value makes
`int` raise `ValueError`. -/
def pyInt (v : Option String) : Except PyErr Int :=
  match v with
  | none => Except.error PyErr.typeError
  | some s =>
    match pyIntOfString s with
    | some n => Except.ok n
    | none => Except.error PyErr.valueError

/-- `self.rfile.read(n)` on a buffered reader over the request bytes:
a non-negative `n` returns the first `n` bytes, `-1` reads everything,
and any other negative length raises `ValueError`. -/
def rfileRead (n : Int) (stream : List Nat) : Except PyErr (List Nat) :=
  if 0 ≤ n then Except.ok (stream.take n.toNat)
  else if n = -1 then Except.ok stream
  else Except.error PyErr.valueError

/-- Embeds `RequestHandler.do_POST`, parameterised by the JSON parser so
that independence from the parser can be stated. Steps, as in the
source: read `Content-Length` and the body, fetch the signature header,
verify; on success parse the body — printing the value and answering 200
on parse success, while a parse failure raises `AttributeError` because
the `except json.DecoderError` clause names a nonexistent attribute, so
the `status = 400` path is unreachable; on verification failure print
the diagnostic and answer 403. The response always carries the header
`Content-type: text/plain` and no body. -/
def do_POST (parse : List Nat → Option JVal) (req : Request) : Except PyErr HandlerResult :=
  match pyInt req.contentLength with
  | Except.error e => Except.error e
  | Except.ok content_length =>
    match rfileRead content_length req.body with
    | Except.error e => Except.error e
    | Except.ok request_data =>
      if verify_signature req.signature request_data then
        match parse request_data with
        | some data =>
          Except.ok
            { printed := [OutputLine.value data]
              response := { status := 200, contentType := "text/plain", responseBody := [] } }
        | none => Except.error PyErr.attributeError
      else
        Except.ok
          { printed := [OutputLine.msg "Signature verification failed"]
            response := { status := 403, contentType := "text/plain", responseBody := [] } }

/-- `do_POST` with the real JSON parser, i.e. the handler as shipped. -/
def handle (req : Request) : Except PyErr HandlerResult :=
  do_POST jsonLoads req

/-- The server loop: requests are handled one after the other. No state
flows from one request to the next — each element is produced from its
request alone, which is the statelessness the code exhibits (the handler
touches only its request and the read-only `SECRET`). -/
def processRequests : List Request → List (Except PyErr HandlerResult)
  | [] => []
  | r :: rs => handle r :: processRequests rs

/-! ### The CLI surface of `main` -/

/-- The parsed command line: `--bind`/`-b` (default the empty string)
and the optional positional `port` (type `int`, default 8000). -/
structure Args where
  bind : String
  port : Int
deriving Repr, DecidableEq

/-- argparse's negative-number test, applied to the characters after a
leading `-`: a token matching `^-\d+$` or `^-\d*\.\d+$` can be a
positional value even though it starts with `-`, because no option
string of this parser looks like a negative number. -/
def negNumTail (t1 : List Char) : Bool :=
  let (ds, r) := spanDigits t1
  match r with
  | [] => !ds.isEmpty
  | '.' :: r2 =>
    let (ds2, r3) := spanDigits r2
    !ds2.isEmpty && r3.isEmpty
  | _ => false

/-- Is the token consumed as an option (rather than as a positional or
an option value)? A lone `-` and negative-number-like tokens are not. -/
def optionLikeTok (t : List Char) : Bool :=
  match t with
  | '-' :: t1 => !t1.isEmpty && !negNumTail t1
  | _ => false

/-- Classify the characters after a leading `--b`: `some none` when the
token is a prefix abbreviation of `--bind` expecting its value in the
next token (`--b`, `--bi`, `--bin`, `--bind`), `some (some v)` for the
inline `--bind=v` forms, `none` when it is no spelling of `--bind`. -/
def bindLongTail : List Char → Option (Option (List Char))
  | [] => some none
  | '=' :: v => some (some v)
  | 'i' :: [] => some none
  | 'i' :: '=' :: v => some (some v)
  | 'i' :: 'n' :: [] => some none
  | 'i' :: 'n' :: '=' :: v => some (some v)
  | 'i' :: 'n' :: 'd' :: [] => some none
  | 'i' :: 'n' :: 'd' :: '=' :: v => some (some v)
  | _ => none

/-- How argparse consumes one token of this parser. -/
inductive TokKind where
  | positional
  | bindNeedsValue
  | bindInline (v : List Char)
  | separator
  | badOption
deriving Repr, DecidableEq

/-- Classify the characters of a token after a leading `--`: the bare
`--` is the end-of-options separator, `--b…` spellings are `--bind`
forms, anything else is an unknown option. -/
def classifyDashDashTail : List Char → TokKind
  | [] => TokKind.separator
  | c :: t3 =>
    if c = 'b' then
      match bindLongTail t3 with
      | some none => TokKind.bindNeedsValue
      | some (some v) => TokKind.bindInline v
      | none => TokKind.badOption
    else TokKind.badOption

/-- Classify the characters of a token after a leading `-`: a bare `-`
is positional, `-b` wants the next token as its value, `-bV` carries the
value inline, `--…` is a long option, anything else is unknown. -/
def classifyDashTail : List Char → TokKind
  | [] => TokKind.positional
  | c :: t2 =>
    if c = 'b' then
      if t2.isEmpty then TokKind.bindNeedsValue else TokKind.bindInline t2
    else if c = '-' then classifyDashDashTail t2
    else TokKind.badOption

/-- Classify one command-line token as argparse does for this parser:
only tokens that start with `-`, are not a bare `-` and do not look like
negative numbers are treated as options. -/
def classifyTok : List Char → TokKind
  | [] => TokKind.positional
  | c :: t1 =>
    if c ≠ '-' then TokKind.positional
    else if negNumTail t1 then TokKind.positional
    else classifyDashTail t1

/-- The running state of argparse's pass over the tokens: the `--bind`
value and the positional collected so far, whether the previous token
was a `-b`/`--bind` spelling still awaiting its value, whether a `--`
separator has been passed, and the first error if any. -/
structure ArgState where
  b : Option (List Char)
  p : Option (List Char)
  pendingBind : Bool
  afterSep : Bool
  err : Option String
deriving Repr, DecidableEq

/-- Consume one token, as `ArgumentParser.parse_args` does for this
parser: a pending `-b`/`--bind` takes the token as its value unless the
token is option-like; after `--` every token is positional; otherwise
the token is classified and acted on, a second positional or an unknown
option being an argparse error. -/
def argStep (st : ArgState) (t : List Char) : ArgState :=
  if st.err.isSome then st
  else if st.pendingBind then
    if optionLikeTok t then { st with err := some "expected one argument" }
    else { st with b := some t, pendingBind := false }
  else if st.afterSep then
    match st.p with
    | none => { st with p := some t }
    | some _ => { st with err := some "unrecognized arguments" }
  else
    match classifyTok t with
    | TokKind.positional =>
      match st.p with
      | none => { st with p := some t }
      | some _ => { st with err := some "unrecognized arguments" }
    | TokKind.bindInline v => { st with b := some v }
    | TokKind.bindNeedsValue => { st with pendingBind := true }
    | TokKind.separator => { st with afterSep := true }
    | TokKind.badOption => { st with err := some "unrecognized arguments" }

/-- One pass over all argument tokens: `--bind V` (with argparse's
unambiguous prefix abbreviations), `-b V`, `--bind=V` and `-bV` set the
bind address; `--` ends option parsing; an unknown option, a second
positional, or a missing or option-like option value is an argparse
error. Returns the collected `--bind` value and positional. -/
def parseTokens (argv : List (List Char)) :
    Except String (Option (List Char) × Option (List Char)) :=
  let st := argv.foldl argStep { b := none, p := none, pendingBind := false,
                                 afterSep := false, err := none }
  match st.err with
  | some e => Except.error e
  | none =>
    if st.pendingBind then Except.error "expected one argument"
    else Except.ok (st.b, st.p)

/-- The CLI of `main`: parse the tokens, apply the defaults `''` and
`8000`, and convert a supplied positional through `type=int` (an
unparsable value is an argparse error). -/
def parseArgs (argv : List (List Char)) : Except String Args :=
  match parseTokens argv with
  | Except.error e => Except.error e
  | Except.ok (b, p) =>
    match p with
    | none => Except.ok { bind := ⟨b.getD []⟩, port := 8000 }
    | some s =>
      match pyIntChars s with
      | some n => Except.ok { bind := ⟨b.getD []⟩, port := n }
      | none => Except.error "invalid int value"

/-- The address `main` passes to the server constructor:
`HTTPServer((args.bind, args.port), RequestHandler)`. -/
def mainBindAddress (args : Args) : String × Int :=
  (args.bind, args.port)

/-- The status code of a handler outcome, when the handler sent a
response at all (`none` when it raised instead). -/
def statusOf (r : Except PyErr HandlerResult) : Option Nat :=
  match r with
  | Except.ok res => some res.response.status
  | Except.error _ => none

/-- The uppercase hexadecimal digit for a nibble. -/
def hexDigitUpper (n : Nat) : Char :=
  "0123456789ABCDEF".data.getD n '0'

/-- Does the character render the nibble in hexadecimal, in either case? -/
def hexCharOf (v : Nat) (c : Char) : Bool :=
  c = hexDigit v || c = hexDigitUpper v

/-- Do the characters render the byte sequence in hexadecimal, two
characters per byte, each digit in either case? The lowercase rendering
`bytesToHex` is one such rendering; an uppercase digest is another. -/
def isHexRendering : List Char → List Nat → Bool
  | [], [] => true
  | c1 :: c2 :: cs, b :: bs =>
    hexCharOf (b >>> 4 % 16) c1 && hexCharOf (b % 16) c2 && isHexRendering cs bs
  | _, _ => false

/-! ## Helper lemmas -/

theorem isJsonWs_of_digit {c : Char} (h : isDigitCh c = true) : isJsonWs c = false := by
  cases hw : isJsonWs c
  · rfl
  · exfalso
    simp only [isJsonWs, Bool.or_eq_true, decide_eq_true_eq] at hw
    rcases hw with ((rfl | rfl) | rfl) | rfl <;> exact absurd h (by decide)

theorem skipWs_all_digits {l : List Char} (h : l.all isDigitCh = true) : skipWs l = l := by
  cases l with
  | nil => rfl
  | cons c r =>
    have hc : isDigitCh c = true := by
      simp only [List.all_cons, Bool.and_eq_true] at h
      exact h.1
    show (if isJsonWs c then skipWs r else c :: r) = c :: r
    rw [isJsonWs_of_digit hc]
    simp

theorem spanDigits_all {l : List Char} (h : l.all isDigitCh = true) : spanDigits l = (l, []) := by
  induction l with
  | nil => rfl
  | cons c r ih =>
    simp only [List.all_cons, Bool.and_eq_true] at h
    simp [spanDigits, h.1, ih h.2]

theorem pySign_no_sign {c : Char} (r : List Char) (hm : c ≠ '-') (hp : c ≠ '+') :
    pySign (c :: r) = (false, c :: r) := by
  unfold pySign
  split
  · rename_i heq
    injection heq with h1 _
    exact absurd h1 hm
  · rename_i heq
    injection heq with h1 _
    exact absurd h1 hp
  · rfl

theorem pyIntChars_digits {l : List Char} (hne : l ≠ []) (h : l.all isDigitCh = true) :
    pyIntChars l = some (Int.ofNat (digitsVal l)) := by
  obtain ⟨c, r, rfl⟩ : ∃ c r, l = c :: r := by
    cases l with
    | nil => exact absurd rfl hne
    | cons c r => exact ⟨c, r, rfl⟩
  have hc : isDigitCh c = true := by
    simp only [List.all_cons, Bool.and_eq_true] at h
    exact h.1
  have hm : c ≠ '-' := by
    rintro rfl
    exact absurd hc (by decide)
  have hp : c ≠ '+' := by
    rintro rfl
    exact absurd hc (by decide)
  have h1 : pySign (skipWs (c :: r)) = (false, c :: r) := by
    rw [skipWs_all_digits h, pySign_no_sign r hm hp]
  have h2 : skipWs ([] : List Char) = [] := rfl
  simp [pyIntChars, h1, spanDigits_all h, h2]

theorem optionLikeTok_not_dash {c : Char} (r : List Char) (hc : c ≠ '-') :
    optionLikeTok (c :: r) = false := by
  unfold optionLikeTok
  split
  · rename_i heq
    injection heq with h1 _
    exact absurd h1 hc
  · rfl

theorem classifyTok_not_dash {c : Char} (r : List Char) (hc : c ≠ '-') :
    classifyTok (c :: r) = TokKind.positional := by
  simp [classifyTok, hc]

/-! ## Theorems -/

/-- C1: `verify_signature(s, B)` returns true exactly when `s` equals
the lowercase HMAC-SHA256 hex digest of `B` under the shared secret, so
the receiver accepts exactly that hex string; in the concrete scenario
with secret `b'secret'` and body `b'{"a":1}'` the correct digest is
accepted and the same digest with its last character altered is
rejected, the handler answering 403. -/
theorem verify_signature_iff_correct_digest :
    (∀ (s : String) (B : List Nat),
      verify_signature (some s) B = true ↔ s = bytesToHex (hmacSha256 SECRET B)) ∧
    verify_signature
      (some "aa9e2e3575f5d7098b6caccd790888c36d5fdb63342a73bada2d6a51747a8494")
      (strBytes "\x7b\x22a\x22:1\x7d") = true ∧
    verify_signature
      (some "aa9e2e3575f5d7098b6caccd790888c36d5fdb63342a73bada2d6a51747a8495")
      (strBytes "\x7b\x22a\x22:1\x7d") = false ∧
    handle { contentLength := some "7",
             signature :=
               some "aa9e2e3575f5d7098b6caccd790888c36d5fdb63342a73bada2d6a51747a8495",
             body := strBytes "\x7b\x22a\x22:1\x7d" } =
      Except.ok { printed := [OutputLine.msg "Signature verification failed"],
                  response :=
                    { status := 403, contentType := "text/plain", responseBody := [] } } := by
  refine ⟨fun s B => ?_, by decide, by decide, by rfl⟩
  simp only [verify_signature, beq_iff_eq]
  exact eq_comm

/-- C3 (code bug): with a valid signature over the non-JSON body
`b'not json'`, the handler does not answer 400: the parse failure makes
the `except json.DecoderError` clause raise `AttributeError` (the json
module has no attribute of that name), so the request raises instead of
responding. -/
theorem signed_non_json_raises_attribute_error :
    handle { contentLength := some "8",
             signature :=
               some "19e44cefdf4796e0dc616e940e49c2ecd3fc476343e40c7c95d39a75dc10e958",
             body := strBytes "not json" } = Except.error PyErr.attributeError := by
  rfl

/-- C7: handling is deterministic and stateless — the outcome at a
request's position in a served sequence is a function of that request
alone (whatever was served before or after it), and serving the same
request twice gives the identical outcome both times. -/
theorem handling_is_stateless :
    ∀ (pre post : List Request) (r : Request),
      processRequests (pre ++ r :: post) =
        processRequests pre ++ handle r :: processRequests post ∧
      processRequests [r, r] = [handle r, handle r] := by
  intro pre post r
  refine ⟨?_, rfl⟩
  induction pre with
  | nil => rfl
  | cons a l ih => simp [processRequests, ih]

/-- C2: when the signature header matches the digest of the body that
was read and that body is valid JSON, the handler prints exactly the
parsed value and responds 200. -/
theorem valid_signature_valid_json_gives_200 :
    ∀ (req : Request) (n : Int) (data : List Nat) (v : JVal),
      pyInt req.contentLength = Except.ok n →
      rfileRead n req.body = Except.ok data →
      verify_signature req.signature data = true →
      jsonLoads data = some v →
      handle req =
        Except.ok { printed := [OutputLine.value v],
                    response :=
                      { status := 200, contentType := "text/plain", responseBody := [] } } := by
  intro req n data v h1 h2 h3 h4
  simp [handle, do_POST, h1, h2, h3, h4]

/-- Witness for C2: the spec's concrete scenario — body `b'{"a":1}'`
with its correct digest yields 200 and the printed dict `{'a': 1}`. -/
theorem valid_signature_valid_json_gives_200_witness :
    pyInt (some "7") = Except.ok 7 ∧
    rfileRead 7 (strBytes "\x7b\x22a\x22:1\x7d") = Except.ok (strBytes "\x7b\x22a\x22:1\x7d") ∧
    verify_signature
      (some "aa9e2e3575f5d7098b6caccd790888c36d5fdb63342a73bada2d6a51747a8494")
      (strBytes "\x7b\x22a\x22:1\x7d") = true ∧
    jsonLoads (strBytes "\x7b\x22a\x22:1\x7d") =
      some (JVal.obj [("a", JVal.num (JNum.int 1))]) ∧
    handle { contentLength := some "7",
             signature :=
               some "aa9e2e3575f5d7098b6caccd790888c36d5fdb63342a73bada2d6a51747a8494",
             body := strBytes "\x7b\x22a\x22:1\x7d" } =
      Except.ok { printed := [OutputLine.value (JVal.obj [("a", JVal.num (JNum.int 1))])],
                  response :=
                    { status := 200, contentType := "text/plain", responseBody := [] } } :=
  ⟨rfl, rfl, by decide, rfl,
    valid_signature_valid_json_gives_200
      { contentLength := some "7",
        signature :=
          some "aa9e2e3575f5d7098b6caccd790888c36d5fdb63342a73bada2d6a51747a8494",
        body := strBytes "\x7b\x22a\x22:1\x7d" }
      7 (strBytes "\x7b\x22a\x22:1\x7d") (JVal.obj [("a", JVal.num (JNum.int 1))])
      rfl rfl (by decide) rfl⟩

/-- C4: a missing `X-HMAC-Signature` header always fails verification
(Python's `str == None` is `False`, not a crash), and any request whose
signature check fails gets exactly the 403 response with the
verification-failure diagnostic, whatever JSON parser is plugged in —
so never 200 or 400. -/
theorem missing_or_wrong_signature_gives_403 :
    (∀ data : List Nat, verify_signature none data = false) ∧
    ∀ (p : List Nat → Option JVal) (req : Request) (n : Int) (data : List Nat),
      pyInt req.contentLength = Except.ok n →
      rfileRead n req.body = Except.ok data →
      verify_signature req.signature data = false →
      do_POST p req =
        Except.ok { printed := [OutputLine.msg "Signature verification failed"],
                    response :=
                      { status := 403, contentType := "text/plain", responseBody := [] } } := by
  refine ⟨fun _ => rfl, ?_⟩
  intro p req n data h1 h2 h3
  simp [do_POST, h1, h2, h3]

/-- Witness for C4: a request with no signature header gets the 403
outcome. -/
theorem missing_or_wrong_signature_gives_403_witness :
    pyInt (some "3") = Except.ok 3 ∧
    rfileRead 3 (strBytes "abc") = Except.ok (strBytes "abc") ∧
    verify_signature none (strBytes "abc") = false ∧
    do_POST jsonLoads { contentLength := some "3", signature := none, body := strBytes "abc" } =
      Except.ok { printed := [OutputLine.msg "Signature verification failed"],
                  response :=
                    { status := 403, contentType := "text/plain", responseBody := [] } } :=
  ⟨rfl, rfl, rfl,
    missing_or_wrong_signature_gives_403.2 jsonLoads
      { contentLength := some "3", signature := none, body := strBytes "abc" }
      3 (strBytes "abc") rfl rfl rfl⟩

/-- C8: when the `Content-Length` header is absent (`int(None)` raises
`TypeError`) or not an integer (`int` raises `ValueError`), the handler
raises before reading the body or consulting the signature: the outcome
is that exception whatever the body bytes and signature header are. -/
theorem missing_content_length_raises :
    (∀ (p : List Nat → Option JVal) (req : Request) (e : PyErr),
      pyInt req.contentLength = Except.error e →
      ∀ (body' : List Nat) (sig' : Option String),
        do_POST p { contentLength := req.contentLength, signature := sig', body := body' } =
          Except.error e) ∧
    pyInt none = Except.error PyErr.typeError := by
  refine ⟨?_, rfl⟩
  intro p req e h body' sig'
  simp [do_POST, h]

/-- Witness for C8: a request without `Content-Length` raises
`TypeError` no matter its body or signature. -/
theorem missing_content_length_raises_witness :
    pyInt (none : Option String) = Except.error PyErr.typeError ∧
    do_POST jsonLoads
        { contentLength := none, signature := some "sig", body := strBytes "body" } =
      Except.error PyErr.typeError :=
  ⟨rfl,
    missing_content_length_raises.1 jsonLoads
      { contentLength := none, signature := none, body := [] } PyErr.typeError rfl
      (strBytes "body") (some "sig")⟩

/-- C5: given the body bytes the handler read, the 403 outcome is
equivalent to the signature check over exactly those raw bytes failing,
for any JSON parser — so the check's outcome never depends on whether
the body parses — and when verification fails the whole outcome is
independent of the parser, i.e. parsing is never attempted. -/
theorem signature_checked_on_raw_bytes_before_parse :
    ∀ (p₁ p₂ : List Nat → Option JVal) (req : Request) (n : Int) (data : List Nat),
      pyInt req.contentLength = Except.ok n →
      rfileRead n req.body = Except.ok data →
      (verify_signature req.signature data = false → do_POST p₁ req = do_POST p₂ req) ∧
      (statusOf (do_POST p₁ req) = some 403 ↔ verify_signature req.signature data = false) := by
  intro p₁ p₂ req n data h1 h2
  constructor
  · intro hv
    simp [do_POST, h1, h2, hv]
  · cases hb : verify_signature req.signature data with
    | false => simp [do_POST, statusOf, h1, h2, hb]
    | true =>
      cases hp : p₁ data with
      | none => simp [do_POST, statusOf, h1, h2, hb, hp]
      | some v => simp [do_POST, statusOf, h1, h2, hb, hp]

/-- Witness for C5 at a concrete unsigned request: the outcome agrees
between the real parser and a parser that always fails, and the 403
status is equivalent to the failed check. -/
theorem signature_checked_on_raw_bytes_before_parse_witness :
    pyInt (some "2") = Except.ok 2 ∧
    rfileRead 2 (strBytes "hi") = Except.ok (strBytes "hi") ∧
    ((verify_signature none (strBytes "hi") = false →
      do_POST jsonLoads { contentLength := some "2", signature := none, body := strBytes "hi" } =
        do_POST (fun _ => none)
          { contentLength := some "2", signature := none, body := strBytes "hi" }) ∧
     (statusOf (do_POST jsonLoads
          { contentLength := some "2", signature := none, body := strBytes "hi" }) = some 403 ↔
      verify_signature none (strBytes "hi") = false)) :=
  ⟨rfl, rfl,
    signature_checked_on_raw_bytes_before_parse jsonLoads (fun _ => none)
      { contentLength := some "2", signature := none, body := strBytes "hi" }
      2 (strBytes "hi") rfl rfl⟩

/-- C6 (code bug): every response the handler does send carries
`Content-type: text/plain` and an empty body — but on the 400 branch no
response is sent at all: a correctly signed non-JSON body makes the
handler raise `AttributeError` (broken `except json.DecoderError`
clause) before `send_response` runs, as the concrete signed body
`b'nope'` shows. -/
theorem response_always_text_plain_empty :
    (∀ (p : List Nat → Option JVal) (req : Request) (res : HandlerResult),
      do_POST p req = Except.ok res →
      res.response.contentType = "text/plain" ∧ res.response.responseBody = []) ∧
    handle { contentLength := some "4",
             signature :=
               some "6d81d2702f31e1a73fd602e8c247fa46a852d9160840fe6d585f75674803b9c1",
             body := strBytes "nope" } = Except.error PyErr.attributeError := by
  constructor
  · intro p req res h
    unfold do_POST at h
    split at h
    · cases h
    · split at h
      · cases h
      · split at h
        · split at h
          · cases h
            exact ⟨rfl, rfl⟩
          · cases h
        · cases h
          exact ⟨rfl, rfl⟩
  · rfl

/-- Witness for C6: the 403 outcome of an unsigned request indeed
carries the plain-text header and empty body. -/
theorem response_always_text_plain_empty_witness :
    ({ printed := [OutputLine.msg "Signature verification failed"],
       response := { status := 403, contentType := "text/plain", responseBody := [] } }
        : HandlerResult).response.contentType = "text/plain" ∧
    ({ printed := [OutputLine.msg "Signature verification failed"],
       response := { status := 403, contentType := "text/plain", responseBody := [] } }
        : HandlerResult).response.responseBody = ([] : List Nat) :=
  response_always_text_plain_empty.1 jsonLoads
    { contentLength := some "0", signature := none, body := [] } _ rfl

/-- C9: the CLI parses to the defaults `bind = ''` and `port = 8000`
when no arguments are given, accepts a decimal numeral as the optional
positional port, accepts `--bind`/`-b` with a value, and `main` binds
the server to exactly `(bind, port)`. -/
theorem cli_defaults_and_binding :
    parseArgs [] = Except.ok { bind := "", port := 8000 } ∧
    (∀ ds : List Char, ds ≠ [] → ds.all isDigitCh = true →
      parseArgs [ds] = Except.ok { bind := "", port := Int.ofNat (digitsVal ds) }) ∧
    (∀ v : List Char, optionLikeTok v = false →
      parseArgs [['-', 'b'], v] = Except.ok { bind := ⟨v⟩, port := 8000 } ∧
      parseArgs ["--bind".data, v] = Except.ok { bind := ⟨v⟩, port := 8000 }) ∧
    (∀ args : Args, mainBindAddress args = (args.bind, args.port)) := by
  refine ⟨rfl, ?_, ?_, fun args => rfl⟩
  · intro ds hne hdig
    obtain ⟨c, r, rfl⟩ : ∃ c r, ds = c :: r := by
      cases ds with
      | nil => exact absurd rfl hne
      | cons c r => exact ⟨c, r, rfl⟩
    have hc : isDigitCh c = true := by
      simp only [List.all_cons, Bool.and_eq_true] at hdig
      exact hdig.1
    have hm : c ≠ '-' := by
      rintro rfl
      exact absurd hc (by decide)
    have hk : classifyTok (c :: r) = TokKind.positional := classifyTok_not_dash r hm
    have hint := pyIntChars_digits hne hdig
    simp [parseArgs, parseTokens, argStep, hk, hint]
  · intro v hv
    have h1 : classifyTok ['-', 'b'] = TokKind.bindNeedsValue := rfl
    have h2 : classifyTok "--bind".data = TokKind.bindNeedsValue := rfl
    constructor
    · simp [parseArgs, parseTokens, argStep, h1, hv]
    · simp [parseArgs, parseTokens, argStep, h2, hv]

/-- Witness for C9: port `8080` and bind `127.0.0.1`, in both flag
spellings. -/
theorem cli_defaults_and_binding_witness :
    "8080".data ≠ ([] : List Char) ∧
    "8080".data.all isDigitCh = true ∧
    optionLikeTok "127.0.0.1".data = false ∧
    parseArgs ["8080".data] = Except.ok { bind := "", port := 8080 } ∧
    parseArgs [['-', 'b'], "127.0.0.1".data] =
      Except.ok { bind := "127.0.0.1", port := 8000 } ∧
    parseArgs ["--bind".data, "127.0.0.1".data] =
      Except.ok { bind := "127.0.0.1", port := 8000 } := by
  have h1 : "8080".data ≠ ([] : List Char) := by decide
  have h2 : "8080".data.all isDigitCh = true := by decide
  have h3 : optionLikeTok "127.0.0.1".data = false := by decide
  have hb := cli_defaults_and_binding.2.2.1 "127.0.0.1".data h3
  exact ⟨h1, h2, h3, cli_defaults_and_binding.2.1 "8080".data h1 h2, hb.1, hb.2⟩

/-- C10: the signature comparison is case-sensitive against the
lowercase digest — any hexadecimal rendering of the correct digest
other than the lowercase one (an uppercase rendering in particular)
fails verification, and such a request is answered 403. -/
theorem uppercase_digest_rejected :
    ∀ (B : List Nat) (s : String),
      isHexRendering s.data (hmacSha256 SECRET B) = true →
      s ≠ bytesToHex (hmacSha256 SECRET B) →
      verify_signature (some s) B = false ∧
      ∀ (p : List Nat → Option JVal) (req : Request) (n : Int),
        pyInt req.contentLength = Except.ok n →
        rfileRead n req.body = Except.ok B →
        req.signature = some s →
        do_POST p req =
          Except.ok { printed := [OutputLine.msg "Signature verification failed"],
                      response :=
                        { status := 403, contentType := "text/plain", responseBody := [] } } := by
  intro B s _hren hne
  have hv : verify_signature (some s) B = false := by
    simp only [verify_signature]
    exact beq_eq_false_iff_ne.mpr (fun h => hne h.symm)
  refine ⟨hv, ?_⟩
  intro p req n h1 h2 h3
  simp [do_POST, h1, h2, h3, hv]

/-- Witness for C10: the uppercase rendering of the digest of body
`b'x'` is a hex rendering of that digest, differs from the lowercase
one, fails verification, and draws the 403 outcome. -/
theorem uppercase_digest_rejected_witness :
    isHexRendering
      "117ECA332F7E13CCB8E4574E4F33DAA212A9231353670C2B8B4797DF0BB77AFA".data
      (hmacSha256 SECRET (strBytes "x")) = true ∧
    "117ECA332F7E13CCB8E4574E4F33DAA212A9231353670C2B8B4797DF0BB77AFA" ≠
      bytesToHex (hmacSha256 SECRET (strBytes "x")) ∧
    verify_signature
      (some "117ECA332F7E13CCB8E4574E4F33DAA212A9231353670C2B8B4797DF0BB77AFA")
      (strBytes "x") = false ∧
    do_POST jsonLoads
        { contentLength := some "1",
          signature :=
            some "117ECA332F7E13CCB8E4574E4F33DAA212A9231353670C2B8B4797DF0BB77AFA",
          body := strBytes "x" } =
      Except.ok { printed := [OutputLine.msg "Signature verification failed"],
                  response :=
                    { status := 403, contentType := "text/plain", responseBody := [] } } := by
  have h1 : isHexRendering
      "117ECA332F7E13CCB8E4574E4F33DAA212A9231353670C2B8B4797DF0BB77AFA".data
      (hmacSha256 SECRET (strBytes "x")) = true := by decide
  have h2 : "117ECA332F7E13CCB8E4574E4F33DAA212A9231353670C2B8B4797DF0BB77AFA" ≠
      bytesToHex (hmacSha256 SECRET (strBytes "x")) := by decide
  have h := uppercase_digest_rejected (strBytes "x")
    "117ECA332F7E13CCB8E4574E4F33DAA212A9231353670C2B8B4797DF0BB77AFA" h1 h2
  exact ⟨h1, h2, h.1,
    h.2 jsonLoads
      { contentLength := some "1",
        signature :=
          some "117ECA332F7E13CCB8E4574E4F33DAA212A9231353670C2B8B4797DF0BB77AFA",
        body := strBytes "x" }
      1 rfl rfl rfl⟩

end Playlog
